import Mathlib

/-!
Shallow embedding of the authentication module `src/src/mod_auth.c` of the
ouistiti HTTP server, together with theorems checking the natural-language
specification against it.

Modelling conventions:
* Connector return codes (`ESUCCESS`, `ECONTINUE`, `EREJECT`, `EINCOMPLETE`,
  from the external httpserver library) become the inductive `HttpRet`.
* C strings that may be `NULL` become `Option String`; fixed-size char-array
  fields (targets of `strncpy`) become `String`, with the all-zero state being
  `""`.  The header `mod_auth.h` (struct layouts, flag masks) is not part of
  the sources, so the `authz_type` bitmask is modelled as a record of the
  flag bits named in the code (`AUTHZ_TOKEN_E`, `AUTHZ_HEADER_E`, ...)
  together with the storage index selected by `AUTHZ_TYPE_MASK`.
* The pluggable backends (`authn_rules_t`, `authz_rules_t`) and the external
  utility functions (`utils_urldecode`, `utils_searchexp`) are abstract
  parameters of the model, matching the spec treating them as contracts.
* The build is the full one: `AUTH_TOKEN` and `RESULT_301` defined and
  `AUTHZ_JWT` undefined (the generic token issuer is active);
  `mod_auth_create` keeps the `AUTHZ_JWT` choice as an explicit parameter.
* To settle the temporal claims, the model additionally records the
  arguments of every call to the backend `check` and `join` operations and
  whether `_authn_challenge` ran; this instrumentation only observes calls
  the C code makes, it never changes control flow.
-/

/-- Connector return codes of the external httpserver API.
`esuccess` claims the request, `ereject` passes it to later connectors. -/
inductive HttpRet where
  | esuccess
  | econtinue
  | ereject
  | eincomplete
deriving DecidableEq, Repr

/-- HTTP statuses used by mod_auth.c (RESULT_200 etc. of the external API). -/
def RESULT_200 : Nat := 200

/-- Moved-permanently status used by the home connector. -/
def RESULT_301 : Nat := 301

/-- Found/redirect status used by the login-redirect fallback. -/
def RESULT_302 : Nat := 302

/-- Unauthorized status used by the generic challenge fallback. -/
def RESULT_401 : Nat := 401

/-- Forbidden status used for AJAX-marked requests. -/
def RESULT_403 : Nat := 403

/-- String constant `str_authenticate` of mod_auth.c. -/
def str_authenticate : String := "WWW-Authenticate"

/-- String constant `str_authorization` of mod_auth.c. -/
def str_authorization : String := "Authorization"

/-- String constant `str_xtoken` of mod_auth.c. -/
def str_xtoken : String := "X-Auth-Token"

/-- String constant `str_xuser` of mod_auth.c. -/
def str_xuser : String := "X-Remote-User"

/-- String constant `str_xgroup` of mod_auth.c. -/
def str_xgroup : String := "X-Remote-Group"

/-- String constant `str_xhome` of mod_auth.c. -/
def str_xhome : String := "X-Remote-Home"

/-- String constant `str_wilcard` of mod_auth.c (the protect default). -/
def str_wilcard : String := "*"

/-- String constant `str_cachecontrol` of mod_auth.c. -/
def str_cachecontrol : String := "Cache-Control"

/-- Location header name (`str_location`, declared in the external
httpserver library). -/
def str_location : String := "Location"

/-- Modelled from the spec: `str_head`, declared in the external httpserver
library, is the fixed HEAD method string used for redirect-based login. -/
def str_head : String := "HEAD"

/-- The `str_authenticate_types` table of mod_auth.c, indexed by the
credential-scheme selector. -/
def str_authenticate_types : List String :=
  ["None", "Basic", "Digest", "Bearer", "oAuth2"]

/-- An HTTP response message as mod_auth.c mutates it: headers added with
`httpmessage_addheader`, cookies with `cookie_set`, and the status set with
`httpmessage_result`. -/
structure http_message where
  headers : List (String × String)
  cookies : List (String × String)
  result : Option Nat
deriving DecidableEq, Repr

/-- A response with nothing emitted yet. -/
def emptyResponse : http_message := ⟨[], [], none⟩

/-- httpmessage_addheader of the external API: appends a response header. -/
def httpmessage_addheader (m : http_message) (name value : String) : http_message :=
  { m with headers := m.headers ++ [(name, value)] }

/-- cookie_set of the external API: appends a response cookie. -/
def cookie_set (m : http_message) (name value : String) : http_message :=
  { m with cookies := m.cookies ++ [(name, value)] }

/-- httpmessage_result of the external API: sets the response status. -/
def httpmessage_result (m : http_message) (status : Nat) : http_message :=
  { m with result := some status }

/-- Which setter `_authn_setauthorization` receives: `httpmessage_addheader`
or `cookie_set` (the `_httpmessage_set` function pointer of mod_auth.c). -/
inductive SetMode where
  | header
  | cookie
deriving DecidableEq, Repr

/-- Applies the selected setter, mirroring the `httpmessage_set` calls. -/
def httpmessage_set (mode : SetMode) (m : http_message) (name value : String) : http_message :=
  match mode with
  | .header => httpmessage_addheader m name value
  | .cookie => cookie_set m name value

/-- An inbound HTTP request as mod_auth.c reads it: the raw uri and method
(via `httpmessage_REQUEST`), plus name-indexed request headers
(`httpmessage_REQUEST` on a header name) and cookies (`cookie_get`);
`none` is a NULL lookup result. -/
structure http_request where
  uri : String
  method : String
  reqHeader : String → Option String
  reqCookie : String → Option String

/-- The C tests `p != NULL && p[0] != '\0'` on lookup results. -/
def nonEmptyOpt : Option String → Bool
  | none => false
  | some s => !(s == "")

/-- Modelled from the spec: `utils_urldecode` and `utils_searchexp` are part
of the external httpserver utility library (not in this repository), so
they are abstract here.  `searchexp uri pat = true` stands for
`utils_searchexp(uri, pat) == ESUCCESS` (the pattern matches the path). -/
structure utils_env where
  urldecode : String → String
  searchexp : String → String → Bool

/-- Modelled from the spec: `utils_searchexp` applied to a NULL pattern
(an unset `protect`/`unprotect`) matches nothing, matching the spec reading
of an unset `unprotect` as "no exclusions". -/
def searchexp0 (env : utils_env) (uri : String) : Option String → Bool
  | none => false
  | some pat => env.searchexp uri pat

/-- The authsession_t record (`mod_auth.h` is not under the sources; the
fields are modelled from their uses in mod_auth.c: `user`, `type`, `group`
and `home` are fixed char arrays filled by `strncpy` with `""` as the
absent value, `token` is a heap pointer, NULL unless token mode ran). -/
structure authsession_t where
  user : String
  type : String
  group : String
  home : String
  token : Option String
deriving DecidableEq, Repr

/-- The credential-scheme backend contract (`authn_rules_t`): `check`
returns the authenticated user or NULL, `challenge` may write a
scheme-specific challenge into the response and returns a connector code,
`createOk` tells whether `create` returns a usable context. -/
structure authn_rules_t where
  check : String → String → String → Option String
  challenge : http_message → HttpRet × http_message
  createOk : Bool

/-- The identity-store backend contract (`authz_rules_t`): optional
`group`/`home` attribute lookups, presence of the `join` operation, and
whether `create` returns a usable context. -/
structure authz_rules_t where
  group : Option (String → Option String)
  home : Option (String → Option String)
  hasJoin : Bool
  createOk : Bool

/-- The mod_auth_t configuration.  The C `authz_type` word is split into
the storage index (`authz_type & AUTHZ_TYPE_MASK`) and the individual flag
bits used by mod_auth.c (the numeric bit values live in the absent
`mod_auth.h`). -/
structure mod_auth_config where
  authz_storage : Nat
  authz_token : Bool
  authz_header : Bool
  authz_cookie : Bool
  authz_unix : Bool
  authz_home : Bool
  authn_type : Nat
  algo : Option String
  protect : Option String
  unprotect : Option String
  redirect : Option String
  expire : Nat
deriving DecidableEq, Repr

/-- The resolved engine `_mod_auth_t`: configuration, the resolved scheme
name `mod->type`, the two backend rule sets, and whether
`mod->authn->ctx` is non-NULL. -/
structure _mod_auth where
  config : mod_auth_config
  type : String
  authn_rules : authn_rules_t
  authz_rules : authz_rules_t
  authn_ctx : Bool

/-- URL-safe base64 alphabet (the external `base64_urlencoding` coder). -/
def base64url_chars : String :=
  "ABCDEFGHIJKLMNOPQRSTUVWXYZabcdefghijklmnopqrstuvwxyz0123456789-_"

/-- Character of the URL-safe base64 alphabet at a 6-bit index. -/
def base64url_char (n : Nat) : Char := base64url_chars.toList.getD n 'A'

/-- Modelled from the spec: URL-safe base64 of a byte list (the external
`base64_urlencoding->encode`); mod_auth.c only ever encodes 24 bytes, a
multiple of 3, so no padding arises. -/
def base64url_encode : List Nat → List Char
  | b1 :: b2 :: b3 :: rest =>
    let n := b1 % 256 * 65536 + b2 % 256 * 256 + b3 % 256
    base64url_char (n / 262144) :: base64url_char (n / 4096 % 64) ::
      base64url_char (n / 64 % 64) :: base64url_char (n % 64) ::
      base64url_encode rest
  | [b1, b2] =>
    let n := b1 % 256 * 65536 + b2 % 256 * 256
    [base64url_char (n / 262144), base64url_char (n / 4096 % 64),
      base64url_char (n / 64 % 64)]
  | [b1] =>
    let n := b1 % 256 * 65536
    [base64url_char (n / 262144), base64url_char (n / 4096 % 64)]
  | [] => []

/-- authz_generatetoken of mod_auth.c: fills a 24-byte nonce from the
process randomness (the `nonce` parameter stands for the bytes `random()`
produced) and URL-safe-base64 encodes those 24 bytes into the token
buffer. -/
def authz_generatetoken (nonce : List Nat) : String :=
  String.mk (base64url_encode (nonce.take 24))

/-- Characters after the first occurrence of `c` (C strchr plus one), or
none when the character is absent. -/
def afterChar (c : Char) : List Char → Option (List Char)
  | [] => none
  | x :: xs => if x = c then some xs else afterChar c xs

/-- C strncmp(l, p, strlen(p)) == 0: does `l` start with the characters of
`p`? -/
def listStartsWith (p l : List Char) : Bool :=
  match p, l with
  | [], _ => true
  | _ :: _, [] => false
  | x :: xs, y :: ys => x == y && listStartsWith xs ys

/-- The suffix of `l` from the first occurrence of `c` (C strchr), or none
when absent. -/
def suffixFromChar (c : Char) : List Char → Option (List Char)
  | [] => none
  | x :: xs => if x = c then some (x :: xs) else suffixFromChar c xs

/-- The suffix right after the first occurrence of the needle (C strstr
advanced past the needle), or none when absent. -/
def afterSub (needle : List Char) : List Char → Option (List Char)
  | [] => none
  | x :: xs =>
    if listStartsWith needle (x :: xs) then some (List.drop needle.length (x :: xs))
    else afterSub needle xs

/-- _authn_setauthorization of mod_auth.c.  When a token is present it is
emitted as `X-Auth-Token`, otherwise a non-NULL `authorization` is echoed;
then `X-Remote-User` always, and `X-Remote-Group` / `X-Remote-Home`:
in the C, `info->group` and `info->home` are char arrays, so the guards
`if (info->group)` and `if (info->home)` are addresses of fields and always
true; the home value emitted is the literal string `~/`. -/
def _authn_setauthorization (authorization : Option String) (info : authsession_t)
    (mode : SetMode) (response : http_message) : http_message :=
  let response :=
    match info.token with
    | some tok => httpmessage_set mode response str_xtoken tok
    | none =>
      match authorization with
      | some a => httpmessage_set mode response str_authorization a
      | none => response
  let response := httpmessage_set mode response str_xuser info.user
  let response := httpmessage_set mode response str_xgroup info.group
  httpmessage_set mode response str_xhome "~/"

/-- _authn_getauthorization of mod_auth.c: credential material from the
`Authorization` header, else the `Authorization` cookie; material not
starting with the configured scheme name is discarded (`strncmp` over
`mod->typelength` bytes); with token transport enabled and still no
material, the `X-Auth-Token` header (header transport) or cookie is taken
instead (build with AUTH_TOKEN defined). -/
def _authn_getauthorization (mod : _mod_auth) (request : http_request) : Option String :=
  let authorization := request.reqHeader str_authorization
  let authorization :=
    if nonEmptyOpt authorization then authorization
    else request.reqCookie str_authorization
  let authorization :=
    match authorization with
    | some a => if listStartsWith mod.type.toList a.toList then some a else none
    | none => none
  if !(nonEmptyOpt authorization) && mod.config.authz_token then
    if mod.config.authz_header then request.reqHeader str_xtoken
    else request.reqCookie str_xtoken
  else authorization

/-- The `strchr(authorization, ' ')` step of _authn_checkauthorization:
the material after the first space, or the whole string when there is no
space. -/
def afterFirstSpace (s : String) : String :=
  match afterChar ' ' s.toList with
  | some rest => String.mk rest
  | none => s

/-- Result of `_authn_checkauthorization` / `_authn_connector`: the
connector code, the mutated response, the (possibly newly cached)
`ctx->info`, plus the instrumentation fields recording each backend
`check` call (method, uri, material), each `join` call (user, token,
expire), and whether `_authn_challenge` ran. -/
structure conn_result where
  ret : HttpRet
  response : http_message
  info : Option authsession_t
  checkCalls : List (String × String × String)
  joinCalls : List (String × String × Nat)
  challengeInvoked : Bool
deriving Repr

/-- The `rules->group` lookup of _authn_checkauthorization: a present
group operation with a non-NULL result is copied (strncpy) into the
identity. -/
def applyGroup (rules : authz_rules_t) (user : String) (info : authsession_t) : authsession_t :=
  match rules.group with
  | some g =>
    match g user with
    | some grp => { info with group := grp }
    | none => info
  | none => info

/-- The `rules->home` lookup of _authn_checkauthorization: a present home
operation with a non-NULL result is copied (strncpy) into the identity. -/
def applyHome (rules : authz_rules_t) (user : String) (info : authsession_t) : authsession_t :=
  match rules.home with
  | some h =>
    match h user with
    | some hm => { info with home := hm }
    | none => info
  | none => info

/-- _authn_checkauthorization of mod_auth.c.  The scheme material is what
follows the first space; with a redirect URL configured the fixed HEAD
method replaces the request method before the backend `check`; on success
the identity record is built once (token via the generic issuer when token
transport is on, then `join` when the store has it, then group and home
lookups) and propagated onto the response through the configured
transport.  `nonce` stands for the bytes the process randomness yields;
the `AUTHZ_UNIX_E` seteuid/setegid transition mutates only OS state and
is outside the response model. -/
def _authn_checkauthorization (mod : _mod_auth) (nonce : List Nat)
    (ctxinfo : Option authsession_t) (authorization method uri : String)
    (response : http_message) : conn_result :=
  let authentication := afterFirstSpace authorization
  let method := if mod.config.redirect.isSome then str_head else method
  match mod.authn_rules.check method uri authentication with
  | some user =>
    let infoAndJoins :=
      match ctxinfo with
      | some info => (info, [])
      | none =>
        let info : authsession_t :=
          { user := user, type := mod.type, group := "", home := "", token := none }
        let infoAndJoins :=
          if mod.config.authz_token then
            let token := authz_generatetoken nonce
            ({ info with token := some token },
             if mod.authz_rules.hasJoin then [(user, token, mod.config.expire)] else [])
          else (info, ([] : List (String × String × Nat)))
        (applyHome mod.authz_rules user (applyGroup mod.authz_rules user infoAndJoins.1),
          infoAndJoins.2)
    let info := infoAndJoins.1
    let response :=
      if mod.config.authz_header then
        _authn_setauthorization (some authorization) info .header response
      else if mod.config.authz_cookie then
        _authn_setauthorization (some authorization) info .cookie response
      else response
    ⟨.ereject, response, some info, [(method, uri, authentication)], infoAndJoins.2, false⟩
  | none =>
    ⟨.econtinue, response, ctxinfo, [(method, uri, authentication)], [], false⟩

/-- C `strstr(hay, needle) != NULL` for a non-empty needle. -/
def strstrContains (hay needle : String) : Bool :=
  (afterSub needle.toList hay.toList).isSome

/-- The redirect-target path component computed inside _authn_challenge:
after a `://` the tail from the next `/`, otherwise the whole redirect
string; a leading `/` is then skipped.  When an absolute URL has no path
the C dereferences the NULL of `strchr` (undefined); that case is modelled
as the empty string and never arises in the claims. -/
def redirectPath (r : String) : String :=
  let redirect :=
    match afterSub [':', '/', '/'] r.toList with
    | some rest => (suffixFromChar '/' rest).getD []
    | none => r.toList
  String.mk (match redirect with
    | '/' :: tl => tl
    | l => l)

/-- The `X_Requested_With && strstr(..., "XMLHttpRequest")` test of
_authn_challenge (the request-origin marker of AJAX-style requests). -/
def ajaxMarked (request : http_request) : Bool :=
  match request.reqHeader "X-Requested-With" with
  | some s => strstrContains s "XMLHttpRequest"
  | none => false

/-- _authn_challenge of mod_auth.c.  The scheme backend's `challenge` runs
first; when it signals ECONTINUE the generic fallback applies: 403 for a
request whose `X-Requested-With` contains `XMLHttpRequest`; with a
redirect URL configured, 200 when the request path matches the redirect's
path component (login page), else a 302 with `Location` and
`Cache-Control: no-cache`; without a redirect URL a plain 401.  The final
`ret = ESUCCESS` of the C block runs unconditionally, so the EREJECT set
in the login-page branch is immediately overwritten. -/
def _authn_challenge (mod : _mod_auth) (env : utils_env) (uri : String)
    (request : http_request) (response : http_message) : HttpRet × http_message :=
  let chall := mod.authn_rules.challenge response
  let response := chall.2
  if chall.1 = .econtinue then
    let response :=
      if ajaxMarked request then
        httpmessage_result response RESULT_403
      else
        match mod.config.redirect with
        | some redirect =>
          if env.searchexp uri (redirectPath redirect) then
            httpmessage_result response RESULT_200
          else
            let response := httpmessage_addheader response str_location redirect
            let response := httpmessage_addheader response str_cachecontrol "no-cache"
            httpmessage_result response RESULT_302
        | none => httpmessage_result response RESULT_401
    (.esuccess, response)
  else (chall.1, response)

/-- The verification phase of _authn_connector (the `ret`/`authorization`
computation of the C between the uri decode and the path decision): a
non-empty inbound `WWW-Authenticate` header yields ESUCCESS and skips
credential extraction (the `if (ret == ECONTINUE)` guard); otherwise the
extracted material (if any, and if the scheme context exists) goes through
`_authn_checkauthorization`, and its absence leaves ECONTINUE. -/
def _authn_verify (mod : _mod_auth) (nonce : List Nat)
    (request : http_request) (response : http_message) : conn_result :=
  if nonEmptyOpt (request.reqHeader str_authenticate) then
    ⟨.esuccess, response, none, [], [], false⟩
  else
    match _authn_getauthorization mod request with
    | some authorization =>
      if mod.authn_ctx then
        _authn_checkauthorization mod nonce none authorization
          request.method request.uri response
      else ⟨.econtinue, response, none, [], [], false⟩
    | none => ⟨.econtinue, response, none, [], [], false⟩

/-- _authn_connector of mod_auth.c, the per-request decision state
machine.  With `ctx->info` already set the cached identity is re-emitted
through the configured transport and EREJECT returned at once.  Otherwise
the verification phase `_authn_verify` runs on the raw uri; a verified
request (EREJECT) binds the session; an unverified one passes through when
the decoded path does not match `protect` or matches `unprotect`, and
otherwise goes to `_authn_challenge`. -/
def _authn_connector (mod : _mod_auth) (env : utils_env) (nonce : List Nat)
    (ctxinfo : Option authsession_t) (request : http_request)
    (response : http_message) : conn_result :=
  match ctxinfo with
  | some info =>
    let response :=
      if mod.config.authz_header then
        _authn_setauthorization none info .header response
      else if mod.config.authz_cookie then
        _authn_setauthorization none info .cookie response
      else response
    ⟨.ereject, response, some info, [], [], false⟩
  | none =>
    let uri := env.urldecode request.uri
    let step := _authn_verify mod nonce request response
    let ret :=
      if step.ret = .ereject then step.ret
      else if !(searchexp0 env uri mod.config.protect) then .ereject
      else if searchexp0 env uri mod.config.unprotect then .ereject
      else step.ret
    if ret ≠ .ereject then
      let chall := _authn_challenge mod env uri request step.response
      ⟨chall.1, chall.2, step.info, step.checkCalls, step.joinCalls, true⟩
    else
      ⟨ret, step.response, step.info, step.checkCalls, step.joinCalls, false⟩

/-- _home_connector of mod_auth.c.  With a session identity bound and the
request not a WebSocket upgrade, a non-empty home whose tail (home + 1,
over homelength - 1 bytes) differs from the start of the decoded uri
yields a 301 to `home/` and ESUCCESS; every other case passes through.
The build defines RESULT_301. -/
def _home_connector (env : utils_env) (session : Option authsession_t)
    (request : http_request) (response : http_message) : HttpRet × http_message :=
  match session with
  | none => (.ereject, response)
  | some info =>
    let home := info.home
    if nonEmptyOpt (request.reqHeader "Sec-WebSocket-Version") then
      (.ereject, response)
    else
      let uri := env.urldecode request.uri
      let homelength := home.toList.length
      if 0 < homelength ∧ uri.toList.take (homelength - 1) ≠ home.toList.drop 1 then
        let location := home ++ "/"
        let response := httpmessage_addheader response str_location location
        (.esuccess, httpmessage_result response RESULT_301)
      else (.ereject, response)

/-- The compile-time backend tables and build flags mod_auth_create reads:
`authz_rules_arr` models the `authz_rules[]` array (entry 0 is NULL, the
others NULL unless the backend is compiled in), `authn_rules_arr` models
`authn_rules[]`, and `jwtBuild` tells whether AUTHZ_JWT is defined. -/
structure create_env where
  authz_rules_arr : List (Option authz_rules_t)
  authn_rules_arr : List (Option authn_rules_t)
  jwtBuild : Bool

/-- Outcome of mod_auth_create: the engine (NULL on failure), whether
`httpserver_addmod` registered the connectors, and the configuration after
the mutations create performs (clearing AUTHZ_TOKEN_E, defaulting
`protect`). -/
structure create_result where
  mod : Option _mod_auth
  addmodCalled : Bool
  finalConfig : mod_auth_config

/-- The AUTHZ_TOKEN_E degradation step of mod_auth_create (non-JWT build
only): a set token flag with a joinless store is an error that merely
clears the flag. -/
def createConfig2 (envr : create_env) (az : authz_rules_t) (config : mod_auth_config) : mod_auth_config :=
  if envr.jwtBuild then config
  else if config.authz_token && !az.hasJoin then { config with authz_token := false }
  else config

/-- The final mutation of mod_auth_create on success: an unset or empty
`protect` becomes the wildcard. -/
def defaultProtect (config : mod_auth_config) : mod_auth_config :=
  if config.protect = none ∨ config.protect = some "" then
    { config with protect := some str_wilcard }
  else config

/-- mod_auth_create of mod_auth.c.  A NULL storage entry is fatal; in a
non-JWT build, AUTHZ_TOKEN_E with a joinless store is degraded (error
logged, flag cleared) and construction continues; a failing store
`create` is fatal; a missing scheme entry or failing scheme `create`
leaves `mod->authn->ctx` NULL, so the engine is torn down and NULL
returned with no connectors registered; on success the connectors are
registered and an unset or empty `protect` defaults to the wildcard.
The hash-algorithm resolution (config->algo) only selects
`mod->authn->hash`, which none of the modelled connectors read, and is
elided. -/
def mod_auth_create (envr : create_env) (config : mod_auth_config) : create_result :=
  match envr.authz_rules_arr.getD config.authz_storage none with
  | none => ⟨none, false, config⟩
  | some azrules =>
    let config := createConfig2 envr azrules config
    if !azrules.createOk then ⟨none, false, config⟩
    else
      match envr.authn_rules_arr.getD config.authn_type none with
      | some ar =>
        if ar.createOk then
          let config := defaultProtect config
          ⟨some { config := config,
                  type := str_authenticate_types.getD config.authn_type "",
                  authn_rules := ar, authz_rules := azrules, authn_ctx := true },
            true, config⟩
        else ⟨none, false, config⟩
      | none => ⟨none, false, config⟩

/-- A concrete Basic-like scheme backend used to instantiate theorems:
accepts exactly the material of user alice. -/
def basicRules : authn_rules_t :=
  { check := fun _m _u a => if a == "YWxpY2U6c2VjcmV0" then some "alice" else none,
    challenge := fun r => (.econtinue, r),
    createOk := true }

/-- A concrete identity store used to instantiate theorems. -/
def simpleStore : authz_rules_t :=
  { group := some fun u => if u == "alice" then some "users" else none,
    home := some fun u => if u == "alice" then some "/home/alice" else none,
    hasJoin := true,
    createOk := true }

/-- A concrete stand-in for the external utilities: the decoder strips the
leading slash (as the real utils_urldecode does for request paths) and the
matcher accepts the wildcard or an exact match. -/
def testEnv : utils_env :=
  { urldecode := fun s => match s.toList with
      | '/' :: tl => String.mk tl
      | _ => s,
    searchexp := fun u p => p == "*" || u == p }

/-- Builds a request from association lists of headers and cookies. -/
def reqOf (uri method : String) (hs cs : List (String × String)) : http_request :=
  { uri := uri, method := method,
    reqHeader := fun n => (hs.find? (fun p => p.1 == n)).map (fun p => p.2),
    reqCookie := fun n => (cs.find? (fun p => p.1 == n)).map (fun p => p.2) }

/-- A concrete configuration: Basic scheme, simple store, header transport,
everything protected. -/
def cfg0 : mod_auth_config :=
  { authz_storage := 1, authz_token := false, authz_header := true,
    authz_cookie := false, authz_unix := false, authz_home := false,
    authn_type := 1, algo := none, protect := some "*", unprotect := none,
    redirect := none, expire := 3600 }

/-- The engine resolved from `cfg0`. -/
def mod0 : _mod_auth :=
  { config := cfg0, type := "Basic", authn_rules := basicRules,
    authz_rules := simpleStore, authn_ctx := true }

/-- A cached identity used to instantiate the already-bound theorems. -/
def aliceInfo : authsession_t :=
  { user := "alice", type := "Basic", group := "users", home := "/home/alice",
    token := none }

/-- C1: on a connection whose context already holds an identity, every
subsequent request returns EREJECT (pass-through) after re-emitting the
cached identity via the configured transport (header when AUTHZ_HEADER_E,
cookie when AUTHZ_COOKIE_E), and the scheme backend's `check` is never
invoked (nor is any challenge produced). -/
theorem C1_alreadyBound_passthrough (mod : _mod_auth) (env : utils_env)
    (nonce : List Nat) (info : authsession_t) (request : http_request)
    (response : http_message) :
    (_authn_connector mod env nonce (some info) request response).ret = HttpRet.ereject ∧
    (_authn_connector mod env nonce (some info) request response).checkCalls = [] ∧
    (_authn_connector mod env nonce (some info) request response).challengeInvoked = false ∧
    (_authn_connector mod env nonce (some info) request response).response =
      (if mod.config.authz_header then
        _authn_setauthorization none info SetMode.header response
      else if mod.config.authz_cookie then
        _authn_setauthorization none info SetMode.cookie response
      else response) := by
  refine ⟨rfl, rfl, rfl, ?_⟩
  simp only [_authn_connector]

/-- When the scheme backend authenticates nobody, the verification phase
never returns EREJECT and leaves the response and the session untouched. -/
theorem _authn_verify_noidentity (mod : _mod_auth) (nonce : List Nat)
    (request : http_request) (response : http_message)
    (hv : ∀ m u a, mod.authn_rules.check m u a = none) :
    (_authn_verify mod nonce request response).ret ≠ HttpRet.ereject ∧
    (_authn_verify mod nonce request response).response = response ∧
    (_authn_verify mod nonce request response).info = none := by
  unfold _authn_verify
  by_cases hlog : nonEmptyOpt (request.reqHeader str_authenticate) = true
  · simp [hlog]
  · simp only [hlog, Bool.false_eq_true, if_false]
    cases hga : _authn_getauthorization mod request with
    | none => simp
    | some a =>
      by_cases hctx : mod.authn_ctx = true
      · simp [hctx, _authn_checkauthorization, hv]
      · simp [hctx]

/-- The token-degradation step never touches the protect pattern. -/
theorem createConfig2_protect (envr : create_env) (az : authz_rules_t)
    (config : mod_auth_config) :
    (createConfig2 envr az config).protect = config.protect := by
  unfold createConfig2
  split
  · rfl
  · split <;> rfl

/-- A successful mod_auth_create turns an unset or empty `protect` into the
wildcard pattern. -/
theorem mod_auth_create_protect_default (envr : create_env) (config : mod_auth_config)
    (hsome : (mod_auth_create envr config).mod.isSome = true)
    (hempty : config.protect = none ∨ config.protect = some "") :
    (mod_auth_create envr config).finalConfig.protect = some str_wilcard := by
  revert hsome
  unfold mod_auth_create
  simp only []
  rcases envr.authz_rules_arr.getD config.authz_storage none with _ | az
  · intro hsome; simp at hsome
  · by_cases hcr : az.createOk = true
    · simp only [hcr, Bool.not_true, Bool.false_eq_true, if_false, reduceIte]
      rcases envr.authn_rules_arr.getD (createConfig2 envr az config).authn_type none with _ | ar
      · intro hsome; simp at hsome
      · by_cases hcr2 : ar.createOk = true
        · simp only [hcr2, if_true, reduceIte]
          intro _
          unfold defaultProtect
          rw [if_pos (by rw [createConfig2_protect]; exact hempty)]
        · simp [hcr2]
    · simp [hcr]

/-- C2: when verification yields no identity on an unbound connection, the
decoded path decides: no `protect` match or an `unprotect` match gives
EREJECT with no challenge and an untouched response; otherwise
`_authn_challenge` runs and delivers the outcome.  The final conjunct is
the precondition: a successful mod_auth_create turns an unset or empty
`protect` into the wildcard pattern. -/
theorem C2_pathDecision (mod : _mod_auth) (env : utils_env) (nonce : List Nat)
    (request : http_request) (response : http_message)
    (hv : ∀ m u a, mod.authn_rules.check m u a = none) :
    ((searchexp0 env (env.urldecode request.uri) mod.config.protect = false ∨
      searchexp0 env (env.urldecode request.uri) mod.config.unprotect = true) →
      (_authn_connector mod env nonce none request response).ret = HttpRet.ereject ∧
      (_authn_connector mod env nonce none request response).challengeInvoked = false ∧
      (_authn_connector mod env nonce none request response).response = response) ∧
    ((searchexp0 env (env.urldecode request.uri) mod.config.protect = true ∧
      searchexp0 env (env.urldecode request.uri) mod.config.unprotect = false) →
      (_authn_connector mod env nonce none request response).challengeInvoked = true ∧
      (_authn_connector mod env nonce none request response).ret =
        (_authn_challenge mod env (env.urldecode request.uri) request response).1 ∧
      (_authn_connector mod env nonce none request response).response =
        (_authn_challenge mod env (env.urldecode request.uri) request response).2) ∧
    (∀ (envr : create_env) (config : mod_auth_config),
      (mod_auth_create envr config).mod.isSome = true →
      (config.protect = none ∨ config.protect = some "") →
      (mod_auth_create envr config).finalConfig.protect = some str_wilcard) := by
  obtain ⟨h1, h2, h3⟩ := _authn_verify_noidentity mod nonce request response hv
  refine ⟨?_, ?_, fun envr config a b => mod_auth_create_protect_default envr config a b⟩
  · intro hpath
    simp only [_authn_connector, h1, h2, h3]
    rcases hpath with h | h <;> simp [h, h1, h2]
  · intro ⟨hp, hu⟩
    simp only [_authn_connector, h1, h2, h3]
    simp [hp, hu, h1, h2]

/-- A scheme backend that authenticates nobody (the C2 instantiation). -/
def noneRules : authn_rules_t :=
  { check := fun _ _ _ => none,
    challenge := fun r => (.econtinue, r),
    createOk := true }

/-- The engine `mod0` with the nobody-authenticating scheme backend. -/
def modNoId : _mod_auth := { mod0 with authn_rules := noneRules }

/-- Witness for C2 at a concrete protected path: the challenge phase runs. -/
theorem C2_pathDecision_witness :
    (_authn_connector modNoId testEnv [] none (reqOf "/x" "GET" [] [])
      emptyResponse).challengeInvoked = true := by
  have h := (C2_pathDecision modNoId testEnv [] (reqOf "/x" "GET" [] [])
    emptyResponse (fun _ _ _ => rfl)).2.1
  exact (h (by decide)).1

/-- C3: when the scheme backend's challenge signals Continue, the generic
fallback yields exactly one of: 403 for an AJAX-marked request; 302 with a
`Location` header equal to the configured redirect URL and a
`Cache-Control: no-cache` header when a redirect URL is configured and the
request path does not match the redirect's path component; 401 when no
redirect URL is configured. -/
theorem C3_challenge_fallback (mod : _mod_auth) (env : utils_env) (uri : String)
    (request : http_request) (response resp1 : http_message)
    (hch : mod.authn_rules.challenge response = (HttpRet.econtinue, resp1)) :
    (ajaxMarked request = true →
      _authn_challenge mod env uri request response =
        (HttpRet.esuccess, httpmessage_result resp1 RESULT_403)) ∧
    (ajaxMarked request = false →
      ∀ red, mod.config.redirect = some red →
        env.searchexp uri (redirectPath red) = false →
        _authn_challenge mod env uri request response =
          (HttpRet.esuccess,
            httpmessage_result
              (httpmessage_addheader
                (httpmessage_addheader resp1 str_location red)
                str_cachecontrol "no-cache")
              RESULT_302)) ∧
    (ajaxMarked request = false →
      mod.config.redirect = none →
        _authn_challenge mod env uri request response =
          (HttpRet.esuccess, httpmessage_result resp1 RESULT_401)) := by
  unfold _authn_challenge
  rw [hch]
  refine ⟨?_, ?_, ?_⟩
  · intro hajax
    simp [hajax]
  · intro hajax red hred hmatch
    simp [hajax, hred, hmatch]
  · intro hajax hred
    simp [hajax, hred]

/-- Witness for C3 in the redirect branch: 302 to the login URL with
caching disabled. -/
theorem C3_challenge_fallback_witness :
    _authn_challenge { mod0 with config := { cfg0 with redirect := some "/login" } }
        testEnv "private" (reqOf "/private" "GET" [] []) emptyResponse =
      (HttpRet.esuccess,
        httpmessage_result
          (httpmessage_addheader
            (httpmessage_addheader emptyResponse str_location "/login")
            str_cachecontrol "no-cache")
          RESULT_302) := by
  have h := (C3_challenge_fallback
    { mod0 with config := { cfg0 with redirect := some "/login" } }
    testEnv "private" (reqOf "/private" "GET" [] []) emptyResponse emptyResponse rfl).2.1
  exact h (by decide) "/login" rfl (by decide)

/-- C4 (code evaluation at the failing input): for an unauthenticated
request to the configured login path, the connector sets status 200 as the
claim says, but returns ESUCCESS — the module claims the request instead
of the EREJECT pass-through the claim (and the in-code comment at the
RESULT_200 branch) requires, because the unconditional `ret = ESUCCESS`
closing the ECONTINUE block of _authn_challenge overwrites the EREJECT
set in the login-page branch. -/
theorem C4_loginpage_claimed :
    (_authn_connector { mod0 with config := { cfg0 with redirect := some "/login" } }
        testEnv [] none (reqOf "/login" "GET" [] []) emptyResponse).ret =
      HttpRet.esuccess ∧
    (_authn_connector { mod0 with config := { cfg0 with redirect := some "/login" } }
        testEnv [] none (reqOf "/login" "GET" [] []) emptyResponse).response.result =
      some RESULT_200 ∧
    HttpRet.esuccess ≠ HttpRet.ereject := by
  refine ⟨by decide, by decide, by decide⟩

/-- C5: the method handed to the scheme backend's `check` is the fixed
HEAD string whenever a redirect URL is configured, and the request's own
method otherwise. -/
theorem C5_head_method (mod : _mod_auth) (nonce : List Nat)
    (ctxinfo : Option authsession_t) (authorization method uri : String)
    (response : http_message) :
    (mod.config.redirect ≠ none →
      ((_authn_checkauthorization mod nonce ctxinfo authorization method uri
        response).checkCalls.map (fun c => c.1)) = [str_head]) ∧
    (mod.config.redirect = none →
      ((_authn_checkauthorization mod nonce ctxinfo authorization method uri
        response).checkCalls.map (fun c => c.1)) = [method]) := by
  rcases hr : mod.config.redirect with _ | r
  · refine ⟨fun h => absurd rfl h, fun _ => ?_⟩
    unfold _authn_checkauthorization
    simp only [hr, Option.isSome_none, Bool.false_eq_true, if_false]
    cases hc : mod.authn_rules.check method uri (afterFirstSpace authorization) <;>
      simp [hc]
  · refine ⟨fun _ => ?_, fun h => absurd h (Option.some_ne_none r)⟩
    unfold _authn_checkauthorization
    simp only [hr, Option.isSome_some, if_true]
    cases hc : mod.authn_rules.check str_head uri (afterFirstSpace authorization) <;>
      simp [hc]

/-- Witness for C5: with a redirect configured, a GET request is checked
with the HEAD method. -/
theorem C5_head_method_witness :
    ((_authn_checkauthorization
        { mod0 with config := { cfg0 with redirect := some "/login" } }
        [] none "Basic zzz" "GET" "/x" emptyResponse).checkCalls.map
      (fun c => c.1)) = [str_head] := by
  exact (C5_head_method { mod0 with config := { cfg0 with redirect := some "/login" } }
    [] none "Basic zzz" "GET" "/x" emptyResponse).1 (by simp)

/-- C6 counterexample: on a connection already bound to alice, a request
carrying the non-empty `WWW-Authenticate: Basic` header is still answered
from the cache — EREJECT with the cached identity re-emitted, no backend
`check`, no challenge — because the bound-connection early return precedes
the logout-header test; re-verification is not forced. -/
theorem C6_counterexample :
    (_authn_connector mod0 testEnv [] (some aliceInfo)
        (reqOf "/x" "GET" [(str_authenticate, "Basic")] []) emptyResponse).ret =
      HttpRet.ereject ∧
    (_authn_connector mod0 testEnv [] (some aliceInfo)
        (reqOf "/x" "GET" [(str_authenticate, "Basic")] []) emptyResponse).checkCalls = [] ∧
    (_authn_connector mod0 testEnv [] (some aliceInfo)
        (reqOf "/x" "GET" [(str_authenticate, "Basic")] []) emptyResponse).challengeInvoked =
      false ∧
    (str_xuser, "alice") ∈
      (_authn_connector mod0 testEnv [] (some aliceInfo)
        (reqOf "/x" "GET" [(str_authenticate, "Basic")] []) emptyResponse).response.headers := by
  exact ⟨by decide, by decide, by decide, by decide⟩

/-- C6 amended: the logout header only acts on a connection that is not
already bound: a non-empty inbound `WWW-Authenticate` header then skips
credential verification entirely (`check` is not invoked, no identity is
bound) and the request proceeds to the path decision — a challenge when
the path is protected, pass-through otherwise.  On an already-bound
connection the header has no effect and the cached identity is reused. -/
theorem C6_amended (mod : _mod_auth) (env : utils_env) (nonce : List Nat)
    (request : http_request) (response : http_message)
    (hlog : nonEmptyOpt (request.reqHeader str_authenticate) = true) :
    (_authn_connector mod env nonce none request response).checkCalls = [] ∧
    (_authn_connector mod env nonce none request response).info = none ∧
    ((searchexp0 env (env.urldecode request.uri) mod.config.protect = true ∧
      searchexp0 env (env.urldecode request.uri) mod.config.unprotect = false) →
      (_authn_connector mod env nonce none request response).challengeInvoked = true) ∧
    ((searchexp0 env (env.urldecode request.uri) mod.config.protect = false ∨
      searchexp0 env (env.urldecode request.uri) mod.config.unprotect = true) →
      (_authn_connector mod env nonce none request response).ret = HttpRet.ereject ∧
      (_authn_connector mod env nonce none request response).challengeInvoked = false) := by
  have hstep : _authn_verify mod nonce request response =
      ⟨HttpRet.esuccess, response, none, [], [], false⟩ := by
    unfold _authn_verify
    rw [if_pos hlog]
  refine ⟨?_, ?_, ?_, ?_⟩
  · simp only [_authn_connector, hstep, apply_ite conn_result.checkCalls, ite_self]
  · simp only [_authn_connector, hstep, apply_ite conn_result.info, ite_self]
  · intro ⟨hp, hu⟩
    simp only [_authn_connector, hstep]
    simp [hp, hu]
  · intro hpath
    simp only [_authn_connector, hstep]
    rcases hpath with h | h <;> simp [h]

/-- Witness for C6 amended: a logout-header request on an unbound
connection reaches the challenge with no backend check. -/
theorem C6_amended_witness :
    (_authn_connector mod0 testEnv [] none
      (reqOf "/x" "GET" [(str_authenticate, "Basic")] []) emptyResponse).checkCalls = [] ∧
    (_authn_connector mod0 testEnv [] none
      (reqOf "/x" "GET" [(str_authenticate, "Basic")] []) emptyResponse).challengeInvoked =
      true := by
  have h := C6_amended mod0 testEnv []
    (reqOf "/x" "GET" [(str_authenticate, "Basic")] []) emptyResponse (by decide)
  exact ⟨h.1, h.2.2.1 (by decide)⟩

/-- The simple store without a `join` operation (C7 instantiation). -/
def noJoinStore : authz_rules_t := { simpleStore with hasJoin := false }

/-- Backend tables of a non-JWT build: the joinless store at index 1, the
Basic-like scheme at index 1. -/
def createEnv0 : create_env :=
  { authz_rules_arr := [none, some noJoinStore],
    authn_rules_arr := [none, some basicRules],
    jwtBuild := false }

/-- The configuration `cfg0` with the token flag set. -/
def tokenCfg : mod_auth_config := { cfg0 with authz_token := true }

/-- C7 counterexample: TokenEnabled together with a joinless identity
store (non-JWT build) does not fail construction — mod_auth_create
returns a non-NULL engine, registers its connectors, and merely clears
the token flag. -/
theorem C7_counterexample :
    (mod_auth_create createEnv0 tokenCfg).mod.isSome = true ∧
    (mod_auth_create createEnv0 tokenCfg).addmodCalled = true ∧
    (mod_auth_create createEnv0 tokenCfg).finalConfig.authz_token = false := by
  exact ⟨rfl, rfl, rfl⟩

/-- C7 amended: construction fails (NULL engine, no connectors registered)
when the identity-store selector has no backend entry, and when the
credential-scheme backend is missing or its `create` fails; but
TokenEnabled with a joinless store in a non-JWT build is not fatal — the
flag is cleared (error logged) and construction continues. -/
theorem C7_amended :
    (∀ (envr : create_env) (config : mod_auth_config),
      envr.authz_rules_arr.getD config.authz_storage none = none →
      (mod_auth_create envr config).mod = none ∧
      (mod_auth_create envr config).addmodCalled = false) ∧
    (∀ (envr : create_env) (config : mod_auth_config) (az : authz_rules_t),
      envr.authz_rules_arr.getD config.authz_storage none = some az →
      (∀ ar, envr.authn_rules_arr.getD (createConfig2 envr az config).authn_type none =
          some ar → ar.createOk = false) →
      (mod_auth_create envr config).mod = none ∧
      (mod_auth_create envr config).addmodCalled = false) ∧
    (∀ (envr : create_env) (config : mod_auth_config) (az : authz_rules_t),
      envr.jwtBuild = false →
      envr.authz_rules_arr.getD config.authz_storage none = some az →
      az.hasJoin = false →
      config.authz_token = true →
      (mod_auth_create envr config).finalConfig.authz_token = false) := by
  refine ⟨?_, ?_, ?_⟩
  · intro envr config hgetz
    unfold mod_auth_create
    rw [hgetz]
    exact ⟨rfl, rfl⟩
  · intro envr config az hgetz har
    unfold mod_auth_create
    rw [hgetz]
    simp only []
    by_cases hcr : az.createOk = true
    · simp only [hcr, Bool.not_true, Bool.false_eq_true, reduceIte]
      rcases hgeta : envr.authn_rules_arr.getD
          (createConfig2 envr az config).authn_type none with _ | ar
      · exact ⟨rfl, rfl⟩
      · have hf := har ar hgeta
        simp [hf]
    · simp [hcr]
  · intro envr config az hjwt hgetz hjoin htok
    have hc2 : (createConfig2 envr az config).authz_token = false := by
      unfold createConfig2
      simp [hjwt, hjoin, htok]
    have hdp : (defaultProtect (createConfig2 envr az config)).authz_token =
        (createConfig2 envr az config).authz_token := by
      unfold defaultProtect
      split <;> rfl
    unfold mod_auth_create
    rw [hgetz]
    simp only []
    by_cases hcr : az.createOk = true
    · simp only [hcr, Bool.not_true, Bool.false_eq_true, reduceIte]
      rcases envr.authn_rules_arr.getD
          (createConfig2 envr az config).authn_type none with _ | ar
      · exact hc2
      · by_cases hcr2 : ar.createOk = true
        · simp only [hcr2, reduceIte]
          rw [hdp]
          exact hc2
        · simp only [hcr2, Bool.false_eq_true, reduceIte]
          exact hc2
    · simp only [hcr, Bool.not_eq_true] at hcr ⊢
      simp [hcr]
      exact hc2

/-- Witness for C7 amended: a storage index with no entry fails
construction; the token flag is cleared on the joinless-store config. -/
theorem C7_amended_witness :
    (mod_auth_create createEnv0 { cfg0 with authz_storage := 5 }).mod = none ∧
    (mod_auth_create createEnv0 tokenCfg).finalConfig.authz_token = false := by
  exact ⟨(C7_amended.1 createEnv0 { cfg0 with authz_storage := 5 } rfl).1,
    C7_amended.2.2 createEnv0 tokenCfg noJoinStore rfl rfl rfl rfl⟩

/-- Four-character output for each three-byte group: URL-safe base64
quadruples the group count. -/
theorem base64url_encode_length (l : List Nat) (h : l.length % 3 = 0) :
    (base64url_encode l).length = l.length / 3 * 4 := by
  induction l using base64url_encode.induct with
  | case1 b1 b2 b3 rest ih =>
    simp only [base64url_encode, List.length_cons]
    simp only [List.length_cons] at h
    have h3 : rest.length % 3 = 0 := by omega
    rw [ih h3]
    omega
  | case2 b1 b2 => simp at h
  | case3 b1 => simp at h
  | case4 => simp [base64url_encode]

/-- The group lookup never touches the token field. -/
theorem applyGroup_token (rules : authz_rules_t) (user : String) (info : authsession_t) :
    (applyGroup rules user info).token = info.token := by
  unfold applyGroup
  split
  · split <;> rfl
  · rfl

/-- The home lookup never touches the token field. -/
theorem applyHome_token (rules : authz_rules_t) (user : String) (info : authsession_t) :
    (applyHome rules user info).token = info.token := by
  unfold applyHome
  split
  · split <;> rfl
  · rfl

/-- The engine `mod0` with token transport enabled. -/
def tokenMod : _mod_auth := { mod0 with config := tokenCfg }

/-- C8 counterexample: at a concrete first verification with token
transport on and a 24-byte nonce, the token attached to the identity is a
32-character string, not the 36 characters the claim announces (24 bytes
URL-safe-base64 encode to 32 characters; 36 is only the size of the C
buffer). -/
theorem C8_counterexample :
    ((_authn_checkauthorization tokenMod (List.replicate 24 0) none
        "Basic YWxpY2U6c2VjcmV0" "GET" "/x" emptyResponse).info.map
      (fun i => (i.token.getD "").length)) = some 32 ∧
    ¬ ((_authn_checkauthorization tokenMod (List.replicate 24 0) none
        "Basic YWxpY2U6c2VjcmV0" "GET" "/x" emptyResponse).info.map
      (fun i => (i.token.getD "").length)) = some 36 := by
  exact ⟨by decide, by decide⟩

/-- C8 amended: on a first successful verification with token and header
transport enabled, the issuer URL-safe-base64 encodes the 24 random bytes
into a 32-character token (the claim's 36 is only the C buffer size),
`join` is called with that token and the configured expiry when the store
has it, the token is attached to the identity, and the response carries
it in `X-Auth-Token`. -/
theorem C8_amended (mod : _mod_auth) (nonce : List Nat)
    (authorization method uri user : String) (response : http_message)
    (hlen : nonce.length = 24)
    (htok : mod.config.authz_token = true)
    (hhdr : mod.config.authz_header = true)
    (hjoin : mod.authz_rules.hasJoin = true)
    (hchk : mod.authn_rules.check
      (if mod.config.redirect.isSome then str_head else method) uri
      (afterFirstSpace authorization) = some user) :
    (authz_generatetoken nonce).length = 32 ∧
    (_authn_checkauthorization mod nonce none authorization method uri
        response).joinCalls =
      [(user, authz_generatetoken nonce, mod.config.expire)] ∧
    (∃ i, (_authn_checkauthorization mod nonce none authorization method uri
        response).info = some i ∧ i.token = some (authz_generatetoken nonce)) ∧
    (str_xtoken, authz_generatetoken nonce) ∈
      (_authn_checkauthorization mod nonce none authorization method uri
        response).response.headers := by
  have hlen32 : (authz_generatetoken nonce).length = 32 := by
    have h1 : (nonce.take 24).length = 24 := by
      simp [List.length_take, hlen]
    have h2 := base64url_encode_length (nonce.take 24) (by rw [h1])
    rw [h1] at h2
    norm_num at h2
    exact h2
  have hrun : _authn_checkauthorization mod nonce none authorization method uri response =
      ⟨HttpRet.ereject,
        _authn_setauthorization (some authorization)
          (applyHome mod.authz_rules user (applyGroup mod.authz_rules user
            { user := user, type := mod.type, group := "", home := "",
              token := some (authz_generatetoken nonce) })) SetMode.header response,
        some (applyHome mod.authz_rules user (applyGroup mod.authz_rules user
            { user := user, type := mod.type, group := "", home := "",
              token := some (authz_generatetoken nonce) })),
        [((if mod.config.redirect.isSome then str_head else method), uri,
          afterFirstSpace authorization)],
        [(user, authz_generatetoken nonce, mod.config.expire)],
        false⟩ := by
    simp only [_authn_checkauthorization]
    rw [hchk]
    simp [htok, hjoin, hhdr]
  refine ⟨hlen32, ?_, ?_, ?_⟩
  · rw [hrun]
  · refine ⟨applyHome mod.authz_rules user (applyGroup mod.authz_rules user
      { user := user, type := mod.type, group := "", home := "",
        token := some (authz_generatetoken nonce) }), by rw [hrun], ?_⟩
    rw [applyHome_token, applyGroup_token]
  · rw [hrun]
    unfold _authn_setauthorization
    rw [applyHome_token, applyGroup_token]
    simp [httpmessage_set, httpmessage_addheader]

/-- Witness for C8 amended: the concrete run joins alice with the
generated token and the configured expiry. -/
theorem C8_amended_witness :
    (_authn_checkauthorization tokenMod (List.replicate 24 0) none
      "Basic YWxpY2U6c2VjcmV0" "GET" "/x" emptyResponse).joinCalls =
      [("alice", authz_generatetoken (List.replicate 24 0), 3600)] := by
  have h := C8_amended tokenMod (List.replicate 24 0) "Basic YWxpY2U6c2VjcmV0"
    "GET" "/x" "alice" emptyResponse (by decide) rfl rfl rfl (by decide)
  exact h.2.1

/-- C9: the Home Connector redirects — 301 with Location `home/` and the
request claimed — exactly when an identity is bound, the request is not a
WebSocket upgrade, the home path is non-empty and the decoded request
path does not already start with home-after-its-first-character (the C
compares `home + 1` with the decoded uri, whose leading slash the decoder
strips); with no session, a WebSocket request, an empty home, or a path
already under home, it passes through untouched. -/
theorem C9_home_redirect (env : utils_env) (info : authsession_t)
    (request : http_request) (response : http_message) :
    (_home_connector env none request response = (HttpRet.ereject, response)) ∧
    (nonEmptyOpt (request.reqHeader "Sec-WebSocket-Version") = true →
      _home_connector env (some info) request response = (HttpRet.ereject, response)) ∧
    (info.home = "" →
      nonEmptyOpt (request.reqHeader "Sec-WebSocket-Version") = false →
      _home_connector env (some info) request response = (HttpRet.ereject, response)) ∧
    (nonEmptyOpt (request.reqHeader "Sec-WebSocket-Version") = false →
      (env.urldecode request.uri).toList.take (info.home.toList.length - 1) =
        info.home.toList.drop 1 →
      _home_connector env (some info) request response = (HttpRet.ereject, response)) ∧
    (nonEmptyOpt (request.reqHeader "Sec-WebSocket-Version") = false →
      info.home ≠ "" →
      (env.urldecode request.uri).toList.take (info.home.toList.length - 1) ≠
        info.home.toList.drop 1 →
      _home_connector env (some info) request response =
        (HttpRet.esuccess,
          httpmessage_result
            (httpmessage_addheader response str_location (info.home ++ "/"))
            RESULT_301)) := by
  refine ⟨rfl, ?_, ?_, ?_, ?_⟩
  · intro hw
    simp only [_home_connector]
    rw [if_pos hw]
  · intro hh hw
    simp only [_home_connector]
    rw [if_neg (by simp [hw])]
    rw [if_neg]
    intro hcond
    rw [hh] at hcond
    simp [show ("" : String).toList = [] from rfl] at hcond
  · intro hw heq
    simp only [_home_connector]
    rw [if_neg (by simp [hw])]
    rw [if_neg]
    intro hcond
    exact hcond.2 heq
  · intro hw hh hneq
    have hlen : 0 < info.home.toList.length := by
      cases hl : info.home.toList with
      | nil =>
        have hdata : info.home.data = [] := hl
        exact absurd (String.ext (hdata.trans rfl)) hh
      | cons a l => simp
    simp only [_home_connector]
    rw [if_neg (by simp [hw])]
    rw [if_pos ⟨hlen, hneq⟩]

/-- Witness for C9 (Scenario E): with home `/home/alice` bound, `/other`
draws a 301 to `/home/alice/` and `/home/alice/anything` passes through. -/
theorem C9_home_redirect_witness :
    _home_connector testEnv (some aliceInfo) (reqOf "/other" "GET" [] [])
        emptyResponse =
      (HttpRet.esuccess,
        httpmessage_result
          (httpmessage_addheader emptyResponse str_location "/home/alice/")
          RESULT_301) ∧
    _home_connector testEnv (some aliceInfo)
        (reqOf "/home/alice/anything" "GET" [] []) emptyResponse =
      (HttpRet.ereject, emptyResponse) := by
  have h5 := (C9_home_redirect testEnv aliceInfo (reqOf "/other" "GET" [] [])
    emptyResponse).2.2.2.2
  have h4 := (C9_home_redirect testEnv aliceInfo
    (reqOf "/home/alice/anything" "GET" [] []) emptyResponse).2.2.2.1
  exact ⟨h5 (by decide) (by decide) (by decide), h4 (by decide) (by decide)⟩

/-- C10: whenever an identity with a non-empty home is propagated onto a
response, the home transport value emitted (header `X-Remote-Home` under
header transport, the cookie of the same name under cookie transport) is
the literal string `~/`, and — whenever the home differs from that
literal — never the identity's actual home path. -/
theorem C10_home_literal (authorization : Option String) (info : authsession_t)
    (hne : info.home ≠ "") (hlit : info.home ≠ "~/") :
    ((str_xhome, "~/") ∈
        (_authn_setauthorization authorization info SetMode.header emptyResponse).headers ∧
      (str_xhome, info.home) ∉
        (_authn_setauthorization authorization info SetMode.header emptyResponse).headers) ∧
    ((str_xhome, "~/") ∈
        (_authn_setauthorization authorization info SetMode.cookie emptyResponse).cookies ∧
      (str_xhome, info.home) ∉
        (_authn_setauthorization authorization info SetMode.cookie emptyResponse).cookies) := by
  have d1 : str_xhome ≠ str_xtoken := by decide
  have d2 : str_xhome ≠ str_authorization := by decide
  have d3 : str_xhome ≠ str_xuser := by decide
  have d4 : str_xhome ≠ str_xgroup := by decide
  rcases htok : info.token with _ | t <;> rcases authorization with _ | a <;>
    simp [_authn_setauthorization, httpmessage_set, httpmessage_addheader, cookie_set,
      emptyResponse, htok, d1, d2, d3, d4, hlit, Ne.symm hlit]

/-- Witness for C10: alice's identity emits `X-Remote-Home: ~/` and never
her actual home path. -/
theorem C10_home_literal_witness :
    (str_xhome, "~/") ∈
      (_authn_setauthorization none aliceInfo SetMode.header emptyResponse).headers ∧
    (str_xhome, "/home/alice") ∉
      (_authn_setauthorization none aliceInfo SetMode.header emptyResponse).headers := by
  have h := C10_home_literal none aliceInfo (by decide) (by decide)
  exact ⟨h.1.1, h.1.2⟩
